import Mathlib

/-!
# Verification of the OpenGL-Example draw-call builder and scene registry

A shallow embedding of `src/Source/SceneManager.cpp` and `src/Source/object.cpp`
(`object.h`).  Scalar values carried by the program (GLM float vectors, color
components, material coefficients) are modelled as exact rationals; the model
matrix computed by `SetTransformations` is modelled as a real 4x4 matrix so the
GLM rotation matrices (cosines and sines of the rotation angles) are exact.
Calls into the external shader-uniform interface (`ShaderManager::set*Value`)
and mesh draws are modelled as a trace of emitted events; raw OpenGL calls made
by texture teardown are modelled as a trace of `GLCmd`s.  The embedding follows
the source functions statement by statement; the scene-layout data in
`RenderScene` is configuration and is not needed by any claim.
-/

set_option autoImplicit false

/-- 2-component GLM vector (`glm::vec2`), components as exact rationals. -/
structure Vec2 where
  x : ℚ
  y : ℚ
  deriving DecidableEq, Repr

/-- 3-component GLM vector (`glm::vec3`). -/
structure Vec3 where
  x : ℚ
  y : ℚ
  z : ℚ
  deriving DecidableEq, Repr

/-- 4-component GLM vector (`glm::vec4`); `w` is the alpha channel for colors. -/
structure Vec4 where
  x : ℚ
  y : ℚ
  z : ℚ
  w : ℚ
  deriving DecidableEq, Repr

/-- One entry of `SceneManager::m_textureIDs` (struct `TEXTURE_ID`): the tag
string and the OpenGL texture handle. -/
structure TEXTURE_ID where
  tag : String
  ID : Int
  deriving DecidableEq, Repr

/-- `OBJECT_MATERIAL` from `SceneManager.h`: lighting-response coefficients
plus the lookup tag. -/
structure OBJECT_MATERIAL where
  ambientColor : Vec3
  ambientStrength : ℚ
  diffuseColor : Vec3
  specularColor : Vec3
  shininess : ℚ
  tag : String
  deriving DecidableEq, Repr

/-- The registry state of a `SceneManager` instance: the loaded prefix of the
16-slot `m_textureIDs` array (entries `0 ≤ i < m_loadedTextures`; entries past
the count are never read by any scan, which all loop on `i < m_loadedTextures`)
and the `m_objectMaterials` vector.  The C++ array has fixed capacity 16 and
`CreateGLTexture` writes `m_textureIDs[m_loadedTextures]` without a capacity
guard, so states with more than 16 loaded entries correspond to out-of-bounds
writes in the source; theorems that need the capacity take it as a hypothesis. -/
structure SceneManagerState where
  textureIDs : List TEXTURE_ID
  objectMaterials : List OBJECT_MATERIAL
  deriving DecidableEq, Repr

/-- The C++ `while ((index < m_loadedTextures) && (bFound == false))` scan of
`SceneManager::FindTextureSlot`, carrying the running `index`. -/
def findTextureSlotAux : List TEXTURE_ID → String → Nat → Int
  | [], _, _ => -1
  | e :: rest, tag, index =>
      if e.tag = tag then (index : Int) else findTextureSlotAux rest tag (index + 1)

/-- `SceneManager::FindTextureSlot`: first-match linear scan over the loaded
texture entries; returns the slot index, or `-1` when the tag is not found. -/
def FindTextureSlot (s : SceneManagerState) (tag : String) : Int :=
  findTextureSlotAux s.textureIDs tag 0

/-- The body of the `FindMaterial` scan loop: on the first entry whose tag
matches, the five coefficient fields (but not the tag) are copied into the
caller's `material` out-parameter and the loop stops; otherwise the
out-parameter is left untouched. -/
def findMaterialScan : List OBJECT_MATERIAL → String → OBJECT_MATERIAL → OBJECT_MATERIAL
  | [], _, material => material
  | r :: rest, tag, material =>
      if r.tag = tag then
        { material with
            ambientColor := r.ambientColor
            ambientStrength := r.ambientStrength
            diffuseColor := r.diffuseColor
            specularColor := r.specularColor
            shininess := r.shininess }
      else findMaterialScan rest tag material

/-- `SceneManager::FindMaterial(tag, material&)`.  Returns the C++ return value
paired with the final value of the `material` out-parameter.  Faithful to the
source: when `m_objectMaterials` is empty it returns `false`; otherwise it
returns `true` unconditionally — the scan's `bFound` flag is computed but the
function never returns it. -/
def FindMaterial (s : SceneManagerState) (tag : String)
    (material : OBJECT_MATERIAL) : Bool × OBJECT_MATERIAL :=
  if s.objectMaterials.length = 0 then (false, material)
  else (true, findMaterialScan s.objectMaterials tag material)

/-- The decoded result of a successful `stbi_load`: dimensions and channel
count (pixel data is irrelevant to the registry bookkeeping). -/
structure DecodedImage where
  width : Nat
  height : Nat
  colorChannels : Nat
  deriving DecidableEq, Repr

/-- `SceneManager::CreateGLTexture(filename, tag)`.  The external decoder call
`stbi_load(filename, ...)` is modelled by the `image : Option DecodedImage`
argument (`none` = decode failure) and the handle produced by `glGenTextures`
by `newID`.  Returns the C++ boolean result and the state after the call:
decode failure or a channel count other than 3 or 4 returns `false` and leaves
the registry unchanged; otherwise the entry is registered at index
`m_loadedTextures` and the count is incremented. -/
def CreateGLTexture (s : SceneManagerState) (image : Option DecodedImage)
    (tag : String) (newID : Int) : Bool × SceneManagerState :=
  match image with
  | none => (false, s)
  | some im =>
      if im.colorChannels = 3 ∨ im.colorChannels = 4 then
        (true, { s with textureIDs := s.textureIDs ++ [{ tag := tag, ID := newID }] })
      else
        (false, s)

/-- A raw OpenGL call issued by the registry's texture teardown. -/
inductive GLCmd
  | genTextures
  | deleteTextures (ID : Int)
  deriving DecidableEq, Repr

/-- `SceneManager::DestroyGLTextures`: the loop body executes
`glGenTextures(1, &m_textureIDs[i].ID)` for each loaded entry — it generates a
fresh texture handle into each slot; no other GL call is made. -/
def DestroyGLTextures (s : SceneManagerState) : List GLCmd :=
  s.textureIDs.map (fun _ => GLCmd.genTextures)

/-- `SceneManager::~SceneManager`: nulls the shader pointer, deletes the mesh
collaborator, then calls `DestroyGLTextures`; the GL calls it issues are
exactly those of `DestroyGLTextures`. -/
def sceneManagerDestructorGLTrace (s : SceneManagerState) : List GLCmd :=
  DestroyGLTextures s

/-- `SceneManager::DefineObjectMaterials`, statement by statement. `push_back`
stores a copy of the local variable, so later writes to the local do not reach
the vector.  After `glassMaterial` is pushed, the source declares
`screenMaterial` but the subsequent field assignments target `glassMaterial`
(the copy-paste slip in the source); that re-assigned local is never pushed. -/
def DefineObjectMaterials : List OBJECT_MATERIAL :=
  let goldMaterial : OBJECT_MATERIAL :=
    { ambientColor := ⟨0.2, 0.2, 0.2⟩, ambientStrength := 0.3,
      diffuseColor := ⟨0.2, 0.2, 0.2⟩, specularColor := ⟨0.5, 0.5, 0.5⟩,
      shininess := 22.0, tag := "metal" }
  let materials := [goldMaterial]
  let woodMaterial : OBJECT_MATERIAL :=
    { ambientColor := ⟨0.1, 0.1, 0.1⟩, ambientStrength := 0.2,
      diffuseColor := ⟨0.23, 0.23, 0.23⟩, specularColor := ⟨0.1, 0.1, 0.1⟩,
      shininess := 0.3, tag := "wood" }
  let materials := materials ++ [woodMaterial]
  let glassMaterial : OBJECT_MATERIAL :=
    { ambientColor := ⟨0.4, 0.4, 0.4⟩, ambientStrength := 0.3,
      diffuseColor := ⟨0.3, 0.3, 0.3⟩, specularColor := ⟨0.6, 0.6, 0.6⟩,
      shininess := 85.0, tag := "glass" }
  let materials := materials ++ [glassMaterial]
  let softMaterial : OBJECT_MATERIAL :=
    { ambientColor := ⟨0.2, 0.2, 0.2⟩, ambientStrength := 0.4,
      diffuseColor := ⟨0.1, 0.1, 0.1⟩, specularColor := ⟨0.1, 0.1, 0.1⟩,
      shininess := 0.05, tag := "soft" }
  let materials := materials ++ [softMaterial]
  let wallMaterial : OBJECT_MATERIAL :=
    { ambientColor := ⟨0.2, 0.2, 0.2⟩, ambientStrength := 0.3,
      diffuseColor := ⟨0.5, 0.5, 0.5⟩, specularColor := ⟨0.3, 0.3, 0.3⟩,
      shininess := 0.5, tag := "wall" }
  let materials := materials ++ [wallMaterial]
  let matteMaterial : OBJECT_MATERIAL :=
    { ambientColor := ⟨0.2, 0.2, 0.2⟩, ambientStrength := 0.2,
      diffuseColor := ⟨0.1, 0.1, 0.1⟩, specularColor := ⟨0.0, 0.0, 0.0⟩,
      shininess := 0.0, tag := "matte" }
  let materials := materials ++ [matteMaterial]
  -- `OBJECT_MATERIAL screenMaterial;` is declared here in the source but the
  -- assignments below write to `glassMaterial`, whose earlier value is already
  -- copied into the vector; the new value is never pushed.
  let glassMaterial : OBJECT_MATERIAL :=
    { glassMaterial with
        ambientColor := ⟨0.298, 0.694, 0.929⟩
        ambientStrength := 0.2
        diffuseColor := ⟨0.3, 0.3, 0.3⟩
        specularColor := ⟨0.6, 0.6, 0.6⟩
        shininess := 10.0
        tag := "screen" }
  let hedgeMaterial : OBJECT_MATERIAL :=
    { ambientColor := ⟨0.1, 0.1, 0.1⟩, ambientStrength := 0.1,
      diffuseColor := ⟨0.3, 0.2, 0.3⟩, specularColor := ⟨0.4, 0.2, 0.2⟩,
      shininess := 0.5, tag := "hedge" }
  let materials := materials ++ [hedgeMaterial]
  materials

/-- 4x4 real matrix, the model of `glm::mat4`.  Entry `(i, j)` is row `i`,
column `j` of the matrix as applied to column vectors (GLM stores columns, but
its `operator*` is ordinary matrix multiplication in this convention). -/
def Mat4 : Type := Matrix (Fin 4) (Fin 4) ℝ

noncomputable instance : Mul Mat4 := inferInstanceAs (Mul (Matrix (Fin 4) (Fin 4) ℝ))

/-- `glm::scale(v)`: diagonal scaling matrix. -/
noncomputable def glmScale (v : Vec3) : Mat4 :=
  !![(v.x : ℝ), 0, 0, 0;
     0, (v.y : ℝ), 0, 0;
     0, 0, (v.z : ℝ), 0;
     0, 0, 0, 1]

/-- `glm::translate(v)`: identity with the translation in the fourth column. -/
noncomputable def glmTranslate (v : Vec3) : Mat4 :=
  !![1, 0, 0, (v.x : ℝ);
     0, 1, 0, (v.y : ℝ);
     0, 0, 1, (v.z : ℝ);
     0, 0, 0, 1]

/-- `glm::rotate(angle, vec3(1,0,0))`: rotation about the X axis. -/
noncomputable def glmRotateX (angle : ℝ) : Mat4 :=
  !![1, 0, 0, 0;
     0, Real.cos angle, -Real.sin angle, 0;
     0, Real.sin angle, Real.cos angle, 0;
     0, 0, 0, 1]

/-- `glm::rotate(angle, vec3(0,1,0))`: rotation about the Y axis. -/
noncomputable def glmRotateY (angle : ℝ) : Mat4 :=
  !![Real.cos angle, 0, Real.sin angle, 0;
     0, 1, 0, 0;
     -Real.sin angle, 0, Real.cos angle, 0;
     0, 0, 0, 1]

/-- `glm::rotate(angle, vec3(0,0,1))`: rotation about the Z axis. -/
noncomputable def glmRotateZ (angle : ℝ) : Mat4 :=
  !![Real.cos angle, -Real.sin angle, 0, 0;
     Real.sin angle, Real.cos angle, 0, 0;
     0, 0, 1, 0;
     0, 0, 0, 1]

/-- `glm::radians`: degree-to-radian conversion applied to each rotation
component before `glm::rotate`. -/
noncomputable def glmRadians (degrees : ℚ) : ℝ :=
  (degrees : ℝ) * Real.pi / 180

/-- One call into the external shader-uniform interface
(`ShaderManager::set*Value`), with the uniform's name and the value written. -/
inductive ShaderCmd
  | setMat4 (name : String) (m : Mat4)
  | setInt (name : String) (v : Int)
  | setSampler2D (name : String) (v : Int)
  | setVec2 (name : String) (v : Vec2)
  | setVec3 (name : String) (v : Vec3)
  | setVec4 (name : String) (v : Vec4)
  | setFloat (name : String) (v : ℚ)
  | setBool (name : String) (v : Bool)

/-- The meshes drawable through `ShapeMeshes`; `object::render` invokes the
stored selector's draw call.  The selectors stored by the program are the
`RenderScene` lambdas, one per primitive kind, with the default (from
`object.h`) drawing a box. -/
inductive MeshSelector
  | box
  | cylinder
  | cone
  | sphere
  | halfSphere
  | torus
  | halfTorus
  | plane
  | taperedCylinder
  deriving DecidableEq, Repr

/-- An observable effect of a render call: a shader-uniform write or the mesh
draw issued by the stored selector. -/
inductive Event
  | cmd (c : ShaderCmd)
  | draw (m : MeshSelector)

/-- `SceneManager::SetTransformations`: builds the scale, per-axis rotation
(converting degrees to radians) and translation matrices, composes
`modelView = translation * rotationX * rotationY * rotationZ * scale`, and
writes it to the `"model"` uniform.  The shader pointer is non-null whenever
the program renders, so the guarded write is modelled as emitted. -/
noncomputable def SetTransformations (scaleXYZ : Vec3)
    (XrotationDegrees YrotationDegrees ZrotationDegrees : ℚ)
    (positionXYZ : Vec3) : List Event :=
  let scale := glmScale scaleXYZ
  let rotationX := glmRotateX (glmRadians XrotationDegrees)
  let rotationY := glmRotateY (glmRadians YrotationDegrees)
  let rotationZ := glmRotateZ (glmRadians ZrotationDegrees)
  let translation := glmTranslate positionXYZ
  let modelView := translation * rotationX * rotationY * rotationZ * scale
  [Event.cmd (ShaderCmd.setMat4 "model" modelView)]

/-- `SceneManager::SetShaderColor`: writes `bUseTexture = false` (the bool is
passed to `setIntValue`, so `0`) and the color into `objectColor`. -/
def SetShaderColor (red green blue alpha : ℚ) : List Event :=
  [Event.cmd (ShaderCmd.setInt "bUseTexture" 0),
   Event.cmd (ShaderCmd.setVec4 "objectColor" ⟨red, green, blue, alpha⟩)]

/-- `SceneManager::SetShaderTexture`: writes `bUseTexture = true` (`1`), then
resolves the tag with `FindTextureSlot` and writes the result (`-1` when the
tag is unresolved) as the `objectTexture` sampler value. -/
def SetShaderTexture (s : SceneManagerState) (textureTag : String) : List Event :=
  [Event.cmd (ShaderCmd.setInt "bUseTexture" 1),
   Event.cmd (ShaderCmd.setSampler2D "objectTexture" (FindTextureSlot s textureTag))]

/-- `SceneManager::SetTextureUVScale`: writes the `UVscale` uniform. -/
def SetTextureUVScale (u v : ℚ) : List Event :=
  [Event.cmd (ShaderCmd.setVec2 "UVscale" ⟨u, v⟩)]

/-- `SceneManager::SetShaderMaterial`: when the material table is non-empty,
declares a local `OBJECT_MATERIAL material` — default-constructed GLM members
are left uninitialized, modelled by the arbitrary `junk` record — passes it to
`FindMaterial`, and when that returns `true` writes the five `material.*`
uniforms from the out-parameter. -/
def SetShaderMaterial (s : SceneManagerState) (junk : OBJECT_MATERIAL)
    (materialTag : String) : List Event :=
  if s.objectMaterials.length > 0 then
    let result := FindMaterial s materialTag junk
    if result.1 then
      [Event.cmd (ShaderCmd.setVec3 "material.ambientColor" result.2.ambientColor),
       Event.cmd (ShaderCmd.setFloat "material.ambientStrength" result.2.ambientStrength),
       Event.cmd (ShaderCmd.setVec3 "material.diffuseColor" result.2.diffuseColor),
       Event.cmd (ShaderCmd.setVec3 "material.specularColor" result.2.specularColor),
       Event.cmd (ShaderCmd.setFloat "material.shininess" result.2.shininess)]
    else []
  else []

/-- The member state of an `object` instance (`object.h`), with the in-class
default member initializers. -/
structure ObjectState where
  uvScale : Vec2 := ⟨0, 0⟩
  rotations : Vec3 := ⟨0, 0, 0⟩
  scale : Vec3 := ⟨1, 1, 1⟩
  position : Vec3 := ⟨0, 0, 0⟩
  RGBA : Vec4 := ⟨0, 0, 0, 1⟩
  shape : MeshSelector := MeshSelector.box
  texture : String := ""
  shaderMaterial : String := ""
  deriving DecidableEq, Repr

/-- `object::render`: submits the transformations, then the color (which
disables texturing), then — when the texture tag is non-empty — the texture
slot and UV scale, then — when the material tag is non-empty — the material,
and finally invokes the stored mesh selector's draw call.  The member state is
not modified.  `junk` is the indeterminate initial value of the local
`OBJECT_MATERIAL` inside `SetShaderMaterial`. -/
noncomputable def ObjectState.render (s : SceneManagerState)
    (junk : OBJECT_MATERIAL) (o : ObjectState) : List Event :=
  (SetTransformations o.scale o.rotations.x o.rotations.y o.rotations.z o.position ++
   SetShaderColor o.RGBA.x o.RGBA.y o.RGBA.z o.RGBA.w ++
   (if o.texture ≠ "" then
      SetShaderTexture s o.texture ++ SetTextureUVScale o.uvScale.x o.uvScale.y
    else []) ++
   (if o.shaderMaterial ≠ "" then SetShaderMaterial s junk o.shaderMaterial else [])) ++
  [Event.draw o.shape]

/-- `object::resetAll`: restores every field except the mesh selector. -/
def ObjectState.resetAll (o : ObjectState) : ObjectState :=
  { o with
      uvScale := ⟨0, 0⟩
      rotations := ⟨0, 0, 0⟩
      scale := ⟨1, 1, 1⟩
      position := ⟨0, 0, 0⟩
      RGBA := ⟨0, 0, 0, 1⟩
      texture := ""
      shaderMaterial := "" }

/-- One call on an `object` instance: the eight setters, `render`, or
`resetAll`. -/
inductive BuilderOp
  | set_uvScale (v : Vec2)
  | setRotations (v : Vec3)
  | setScale (v : Vec3)
  | setPosition (v : Vec3)
  | setRGBA (v : Vec4)
  | setShape (m : MeshSelector)
  | setTexture (t : String)
  | setObjectShaderMaterial (t : String)
  | render
  | resetAll
  deriving DecidableEq, Repr

/-- The effect of one builder call on the member state, per `object.cpp`: each
setter assigns exactly its own member, `render` assigns nothing, and
`resetAll` restores everything except the shape. -/
def applyOp (o : ObjectState) : BuilderOp → ObjectState
  | BuilderOp.set_uvScale v => { o with uvScale := v }
  | BuilderOp.setRotations v => { o with rotations := v }
  | BuilderOp.setScale v => { o with scale := v }
  | BuilderOp.setPosition v => { o with position := v }
  | BuilderOp.setRGBA v => { o with RGBA := v }
  | BuilderOp.setShape m => { o with shape := m }
  | BuilderOp.setTexture t => { o with texture := t }
  | BuilderOp.setObjectShaderMaterial t => { o with shaderMaterial := t }
  | BuilderOp.render => o
  | BuilderOp.resetAll => o.resetAll

/-- The member state after a sequence of builder calls. -/
def applyOps (o : ObjectState) (ops : List BuilderOp) : ObjectState :=
  ops.foldl applyOp o

/-- Whether a builder call writes the `uvScale` member. -/
def writes_uvScale : BuilderOp → Bool
  | BuilderOp.set_uvScale _ => true
  | BuilderOp.resetAll => true
  | _ => false

/-- Whether a builder call writes the `rotations` member. -/
def writes_rotations : BuilderOp → Bool
  | BuilderOp.setRotations _ => true
  | BuilderOp.resetAll => true
  | _ => false

/-- Whether a builder call writes the `scale` member. -/
def writes_scale : BuilderOp → Bool
  | BuilderOp.setScale _ => true
  | BuilderOp.resetAll => true
  | _ => false

/-- Whether a builder call writes the `position` member. -/
def writes_position : BuilderOp → Bool
  | BuilderOp.setPosition _ => true
  | BuilderOp.resetAll => true
  | _ => false

/-- Whether a builder call writes the `RGBA` member. -/
def writes_RGBA : BuilderOp → Bool
  | BuilderOp.setRGBA _ => true
  | BuilderOp.resetAll => true
  | _ => false

/-- Whether a builder call writes the `shape` member (`resetAll` does not). -/
def writes_shape : BuilderOp → Bool
  | BuilderOp.setShape _ => true
  | _ => false

/-- Whether a builder call writes the `texture` member. -/
def writes_texture : BuilderOp → Bool
  | BuilderOp.setTexture _ => true
  | BuilderOp.resetAll => true
  | _ => false

/-- Whether a builder call writes the `shaderMaterial` member. -/
def writes_shaderMaterial : BuilderOp → Bool
  | BuilderOp.setObjectShaderMaterial _ => true
  | BuilderOp.resetAll => true
  | _ => false

/-- Extracts the matrix written by a `"model"` uniform submission, `none` for
any other event. -/
def modelMatrixWrites : Event → Option Mat4
  | Event.cmd (ShaderCmd.setMat4 name m) => if name = "model" then some m else none
  | _ => none

/-- Extracts the integer written by a `"bUseTexture"` uniform submission,
`none` for any other event. -/
def useTextureValue : Event → Option Int
  | Event.cmd (ShaderCmd.setInt name v) => if name = "bUseTexture" then some v else none
  | _ => none

/-- The final value of the `"bUseTexture"` uniform after a trace (the mode the
draw actually samples with): the last value written to it, if any. -/
def lastUseTexture (trace : List Event) : Option Int :=
  (trace.filterMap useTextureValue).getLast?

/-- Whether an event is a sampler-uniform submission. -/
def isSampler2DCmd : Event → Bool
  | Event.cmd (ShaderCmd.setSampler2D _ _) => true
  | _ => false

/-- Whether an event writes the `"UVscale"` uniform. -/
def isUVScaleCmd : Event → Bool
  | Event.cmd (ShaderCmd.setVec2 name _) => name == "UVscale"
  | _ => false

/-- Whether an event is a mesh draw. -/
def isDraw : Event → Bool
  | Event.draw _ => true
  | _ => false

/-- A concrete registry state for witnesses: two loaded textures and the
material table produced by `DefineObjectMaterials`. -/
def sampleScene : SceneManagerState :=
  { textureIDs := [{ tag := "wood", ID := 7 }, { tag := "keys", ID := 8 }],
    objectMaterials := DefineObjectMaterials }

/-- A concrete stand-in for the indeterminate initial value of the local
`OBJECT_MATERIAL` in `SetShaderMaterial`. -/
def junkMaterial : OBJECT_MATERIAL :=
  { ambientColor := ⟨9, 9, 9⟩, ambientStrength := 9, diffuseColor := ⟨9, 9, 9⟩,
    specularColor := ⟨9, 9, 9⟩, shininess := 9, tag := "" }

/-- A default-constructed builder (empty texture tag). -/
def oPlain : ObjectState := {}

/-- A builder with a texture tag and material tag set. -/
def oWood : ObjectState :=
  { uvScale := ⟨3, 3⟩, texture := "wood", shaderMaterial := "glass" }

/-- A concrete builder-call sequence for the state-carry witness. -/
def opsSample : List BuilderOp :=
  [BuilderOp.setTexture "wood", BuilderOp.render, BuilderOp.setPosition ⟨1, 2, 3⟩]

/-- The scan returns `-1` when no loaded entry carries the tag. -/
lemma findTextureSlotAux_not_found (l : List TEXTURE_ID) (tag : String)
    (h : ∀ e ∈ l, e.tag ≠ tag) : ∀ n : Nat, findTextureSlotAux l tag n = -1 := by
  induction l with
  | nil => intro n; rfl
  | cons e rest ih =>
      intro n
      have he : e.tag ≠ tag := h e (List.mem_cons_self _ _)
      simp only [findTextureSlotAux, if_neg he]
      exact ih (fun x hx => h x (List.mem_cons_of_mem _ hx)) (n + 1)

/-- Entries appended after the first match never change the scan result. -/
lemma findTextureSlotAux_append_of_found (l extra : List TEXTURE_ID) (tag : String)
    (h : ∃ e ∈ l, e.tag = tag) :
    ∀ n : Nat, findTextureSlotAux (l ++ extra) tag n = findTextureSlotAux l tag n := by
  induction l with
  | nil =>
      obtain ⟨e, he, _⟩ := h
      simp at he
  | cons e rest ih =>
      intro n
      by_cases he : e.tag = tag
      · simp [findTextureSlotAux, he]
      · obtain ⟨x, hx, hxt⟩ := h
        have hx2 : x ∈ rest := by
          rcases List.mem_cons.mp hx with h1 | h1
          · rw [h1] at hxt; exact absurd hxt he
          · exact h1
        simp only [List.cons_append, findTextureSlotAux, if_neg he]
        exact ih ⟨x, hx2, hxt⟩ (n + 1)

/-- When the tag occurs, the scan returns the accumulator plus the index of
the first occurrence. -/
lemma findTextureSlotAux_findIdx (l : List TEXTURE_ID) (tag : String)
    (h : ∃ e ∈ l, e.tag = tag) :
    ∀ n : Nat,
      findTextureSlotAux l tag n = ((n + l.findIdx fun e => e.tag == tag : Nat) : Int) := by
  induction l with
  | nil =>
      obtain ⟨e, he, _⟩ := h
      simp at he
  | cons e rest ih =>
      intro n
      by_cases he : e.tag = tag
      · have hb : (fun e : TEXTURE_ID => e.tag == tag) e = true := by simp [he]
        simp [findTextureSlotAux, he, List.findIdx_cons, hb]
      · have hb : (e.tag == tag) = false := by simp [he]
        obtain ⟨x, hx, hxt⟩ := h
        have hx2 : x ∈ rest := by
          rcases List.mem_cons.mp hx with h1 | h1
          · rw [h1] at hxt; exact absurd hxt he
          · exact h1
        simp only [findTextureSlotAux, if_neg he, List.findIdx_cons, hb, cond_false]
        rw [ih ⟨x, hx2, hxt⟩ (n + 1)]
        push_cast
        ring

/-- Appending a matching entry after a tag-free table makes the scan return
the accumulator plus the old length. -/
lemma findTextureSlotAux_append_fresh (l : List TEXTURE_ID) (tag : String)
    (entry : TEXTURE_ID) (h : ∀ e ∈ l, e.tag ≠ tag) (hentry : entry.tag = tag) :
    ∀ n : Nat, findTextureSlotAux (l ++ [entry]) tag n = ((n + l.length : Nat) : Int) := by
  induction l with
  | nil => intro n; simp [findTextureSlotAux, hentry]
  | cons e rest ih =>
      intro n
      have he : e.tag ≠ tag := h e (List.mem_cons_self _ _)
      simp only [List.cons_append, findTextureSlotAux, if_neg he]
      have hrest := ih (fun x hx => h x (List.mem_cons_of_mem _ hx)) (n + 1)
      rw [show (rest.append [entry]) = rest ++ [entry] from rfl, hrest]
      simp only [List.length_cons]
      push_cast
      ring

/-- A scan over a table with no matching tag leaves the out-parameter alone. -/
lemma findMaterialScan_not_found (l : List OBJECT_MATERIAL) (tag : String)
    (junk : OBJECT_MATERIAL) (h : ∀ m ∈ l, m.tag ≠ tag) :
    findMaterialScan l tag junk = junk := by
  induction l with
  | nil => rfl
  | cons r rest ih =>
      have hr : r.tag ≠ tag := h r (List.mem_cons_self _ _)
      simp only [findMaterialScan, if_neg hr]
      exact ih (fun m hm => h m (List.mem_cons_of_mem _ hm))

/-- Claim C6: a tag never registered by a successful load scans to `-1`; a
registered tag scans to the index of its first occurrence, which lies in
`[0, 16)` whenever the table respects the array capacity, equals the position
at which the tag was appended, and is unchanged by every subsequent
`CreateGLTexture` call, whatever its outcome. -/
theorem FindTextureSlot_spec (s : SceneManagerState) (tag : String) :
    ((∀ e ∈ s.textureIDs, e.tag ≠ tag) → FindTextureSlot s tag = -1) ∧
    ((∃ e ∈ s.textureIDs, e.tag = tag) → s.textureIDs.length ≤ 16 →
      0 ≤ FindTextureSlot s tag ∧ FindTextureSlot s tag < 16 ∧
      FindTextureSlot s tag = ((s.textureIDs.findIdx fun e => e.tag == tag : Nat) : Int)) ∧
    ((∃ e ∈ s.textureIDs, e.tag = tag) →
      ∀ (image : Option DecodedImage) (otherTag : String) (newID : Int),
        FindTextureSlot (CreateGLTexture s image otherTag newID).2 tag = FindTextureSlot s tag) ∧
    ((∀ e ∈ s.textureIDs, e.tag ≠ tag) →
      ∀ (im : DecodedImage) (newID : Int), im.colorChannels = 3 ∨ im.colorChannels = 4 →
        FindTextureSlot (CreateGLTexture s (some im) tag newID).2 tag
          = (s.textureIDs.length : Int)) := by
  refine ⟨fun h => findTextureSlotAux_not_found _ _ h 0, fun h h16 => ?_,
          fun h image otherTag newID => ?_, fun h im newID hch => ?_⟩
  · have heq : FindTextureSlot s tag
        = ((0 + (s.textureIDs.findIdx fun e => e.tag == tag) : Nat) : Int) :=
      findTextureSlotAux_findIdx s.textureIDs tag h 0
    have hlt : (s.textureIDs.findIdx fun e => e.tag == tag) < s.textureIDs.length := by
      apply List.findIdx_lt_length_of_exists
      obtain ⟨e, he, het⟩ := h
      exact ⟨e, he, by simp [het]⟩
    refine ⟨by omega, by omega, by omega⟩
  · cases image with
    | none => rfl
    | some im =>
        by_cases hch : im.colorChannels = 3 ∨ im.colorChannels = 4
        · simp only [CreateGLTexture, if_pos hch]
          exact findTextureSlotAux_append_of_found s.textureIDs _ tag h 0
        · simp only [CreateGLTexture, if_neg hch]
  · simp only [CreateGLTexture, if_pos hch]
    have := findTextureSlotAux_append_fresh s.textureIDs tag { tag := tag, ID := newID } h rfl 0
    simpa using this

/-- Witness for claim C6 at a concrete registry. -/
theorem FindTextureSlot_spec_witness :
    FindTextureSlot sampleScene "brick" = -1 ∧
    FindTextureSlot sampleScene "keys"
      = ((sampleScene.textureIDs.findIdx fun e => e.tag == "keys" : Nat) : Int) ∧
    FindTextureSlot (CreateGLTexture sampleScene (some ⟨2, 2, 4⟩) "brick" 9).2 "keys"
      = FindTextureSlot sampleScene "keys" ∧
    FindTextureSlot (CreateGLTexture sampleScene (some ⟨2, 2, 3⟩) "brick" 9).2 "brick"
      = (sampleScene.textureIDs.length : Int) := by
  obtain ⟨h1, h2, h3, h4⟩ := FindTextureSlot_spec sampleScene "keys"
  obtain ⟨g1, g2, g3, g4⟩ := FindTextureSlot_spec sampleScene "brick"
  exact ⟨g1 (by decide), (h2 (by decide) (by decide)).2.2,
         h3 (by decide) (some ⟨2, 2, 4⟩) "brick" 9, g4 (by decide) ⟨2, 2, 3⟩ 9 (Or.inl rfl)⟩

/-- Claim C7: `CreateGLTexture` returns `false` and leaves the registry
untouched on decode failure and on any channel count other than 3 or 4; on a
successful 3- or 4-channel decode it returns `true` and appends exactly the
one new entry. -/
theorem CreateGLTexture_spec (s : SceneManagerState) (tag : String) (newID : Int) :
    CreateGLTexture s none tag newID = (false, s) ∧
    (∀ im : DecodedImage, im.colorChannels ≠ 3 → im.colorChannels ≠ 4 →
      CreateGLTexture s (some im) tag newID = (false, s)) ∧
    (∀ im : DecodedImage, im.colorChannels = 3 ∨ im.colorChannels = 4 →
      (CreateGLTexture s (some im) tag newID).1 = true ∧
      (CreateGLTexture s (some im) tag newID).2.textureIDs
        = s.textureIDs ++ [{ tag := tag, ID := newID }] ∧
      (CreateGLTexture s (some im) tag newID).2.objectMaterials = s.objectMaterials) := by
  refine ⟨rfl, fun im h3 h4 => ?_, fun im hch => ?_⟩
  · have hno : ¬(im.colorChannels = 3 ∨ im.colorChannels = 4) := by tauto
    simp [CreateGLTexture, hno]
  · refine ⟨?_, ?_, ?_⟩ <;> simp [CreateGLTexture, hch]

/-- Witness for claim C7: a 2-channel image is rejected without mutation, a
4-channel image is appended. -/
theorem CreateGLTexture_spec_witness :
    CreateGLTexture sampleScene none "x" 5 = (false, sampleScene) ∧
    CreateGLTexture sampleScene (some ⟨2, 2, 2⟩) "x" 5 = (false, sampleScene) ∧
    (CreateGLTexture sampleScene (some ⟨2, 2, 4⟩) "x" 5).1 = true ∧
    (CreateGLTexture sampleScene (some ⟨2, 2, 4⟩) "x" 5).2.textureIDs
      = sampleScene.textureIDs ++ [{ tag := "x", ID := 5 }] := by
  obtain ⟨h1, h2, h3⟩ := CreateGLTexture_spec sampleScene "x" 5
  exact ⟨h1, h2 ⟨2, 2, 2⟩ (by decide) (by decide), (h3 ⟨2, 2, 4⟩ (Or.inr rfl)).1,
         (h3 ⟨2, 2, 4⟩ (Or.inr rfl)).2.1⟩

/-- Claim C1 (refuting evaluation): with a non-empty material table, a lookup
of a tag present on no record does NOT report absence — `FindMaterial` returns
`true` with the out-parameter (the caller's uninitialized local) untouched, and
`SetShaderMaterial` consequently submits all five material uniforms, filled
from that uninitialized record. -/
theorem FindMaterial_missing_tag_still_submits (s : SceneManagerState)
    (junk : OBJECT_MATERIAL) (tag : String) (hne : s.objectMaterials ≠ [])
    (hmiss : ∀ m ∈ s.objectMaterials, m.tag ≠ tag) :
    (FindMaterial s tag junk).1 = true ∧
    (FindMaterial s tag junk).2 = junk ∧
    SetShaderMaterial s junk tag =
      [Event.cmd (ShaderCmd.setVec3 "material.ambientColor" junk.ambientColor),
       Event.cmd (ShaderCmd.setFloat "material.ambientStrength" junk.ambientStrength),
       Event.cmd (ShaderCmd.setVec3 "material.diffuseColor" junk.diffuseColor),
       Event.cmd (ShaderCmd.setVec3 "material.specularColor" junk.specularColor),
       Event.cmd (ShaderCmd.setFloat "material.shininess" junk.shininess)] := by
  have hlen : s.objectMaterials.length ≠ 0 := fun hzero =>
    hne (List.length_eq_zero.mp hzero)
  have hfm : FindMaterial s tag junk = (true, junk) := by
    rw [FindMaterial, if_neg hlen, findMaterialScan_not_found _ _ _ hmiss]
  refine ⟨by rw [hfm], by rw [hfm], ?_⟩
  rw [SetShaderMaterial]
  rw [if_pos (Nat.pos_of_ne_zero hlen)]
  rw [hfm]
  simp

/-- Witness for claim C1: the scene's own material table, tag
`"nonexistent"`. -/
theorem FindMaterial_missing_tag_still_submits_witness :
    (FindMaterial sampleScene "nonexistent" junkMaterial).1 = true ∧
    (FindMaterial sampleScene "nonexistent" junkMaterial).2 = junkMaterial ∧
    SetShaderMaterial sampleScene junkMaterial "nonexistent" =
      [Event.cmd (ShaderCmd.setVec3 "material.ambientColor" junkMaterial.ambientColor),
       Event.cmd (ShaderCmd.setFloat "material.ambientStrength" junkMaterial.ambientStrength),
       Event.cmd (ShaderCmd.setVec3 "material.diffuseColor" junkMaterial.diffuseColor),
       Event.cmd (ShaderCmd.setVec3 "material.specularColor" junkMaterial.specularColor),
       Event.cmd (ShaderCmd.setFloat "material.shininess" junkMaterial.shininess)] :=
  FindMaterial_missing_tag_still_submits sampleScene junkMaterial "nonexistent"
    (by decide) (by decide)

/-- Counterexample to claim C2 as stated: the material table produced by
`DefineObjectMaterials` holds no glass record carrying the screen-material
values (ambientStrength 0.2, shininess 10) — `push_back` copied the original
glass record before the slipped assignments ran. -/
theorem DefineObjectMaterials_glass_not_overwritten :
    ¬ ∃ m ∈ DefineObjectMaterials,
        m.tag = "glass" ∧ m.ambientStrength = 0.2 ∧ m.shininess = 10 := by
  rintro ⟨m, hm, htag, hstr, hshin⟩
  simp only [DefineObjectMaterials, List.cons_append, List.nil_append, List.mem_cons,
    List.not_mem_nil, or_false] at hm
  rcases hm with rfl | rfl | rfl | rfl | rfl | rfl | rfl
  · exact absurd htag (by decide)
  · exact absurd htag (by decide)
  · exact absurd hstr (by norm_num)
  · exact absurd htag (by decide)
  · exact absurd htag (by decide)
  · exact absurd htag (by decide)
  · exact absurd htag (by decide)

/-- Claim C2 (amended): after `DefineObjectMaterials`, no record carries the
tag `"screen"`, and the stored glass record retains its original field values
(ambient (0.4,0.4,0.4), strength 0.3, diffuse (0.3,0.3,0.3), specular
(0.6,0.6,0.6), shininess 85): the screen-material assignments only reached the
dead local variable. -/
theorem DefineObjectMaterials_screen_slip :
    DefineObjectMaterials.all (fun m => m.tag != "screen") = true ∧
    DefineObjectMaterials.filter (fun m => m.tag == "glass") =
      [{ ambientColor := ⟨0.4, 0.4, 0.4⟩, ambientStrength := 0.3,
         diffuseColor := ⟨0.3, 0.3, 0.3⟩, specularColor := ⟨0.6, 0.6, 0.6⟩,
         shininess := 85.0, tag := "glass" }] := by
  exact ⟨rfl, rfl⟩

/-- Claim C9 (refuting evaluation): the GL trace of registry teardown consists
of one `glGenTextures` call per loaded texture and nothing else — in
particular it contains no `glDeleteTextures` call, so no loaded texture's GPU
handle is ever released. -/
theorem sceneManagerDestructor_releases_nothing (s : SceneManagerState) :
    sceneManagerDestructorGLTrace s = s.textureIDs.map (fun _ => GLCmd.genTextures) ∧
    (sceneManagerDestructorGLTrace s).all (fun c => c == GLCmd.genTextures) = true := by
  refine ⟨rfl, ?_⟩
  rw [List.all_eq_true]
  intro c hc
  rw [sceneManagerDestructorGLTrace, DestroyGLTextures] at hc
  obtain ⟨e, _, rfl⟩ := List.mem_map.mp hc
  rfl

/-- A call not writing `uvScale` leaves it unchanged. -/
lemma applyOp_uvScale (o : ObjectState) (op : BuilderOp)
    (h : writes_uvScale op = false) : (applyOp o op).uvScale = o.uvScale := by
  cases op <;> simp_all [applyOp, writes_uvScale, ObjectState.resetAll]

/-- A call not writing `rotations` leaves it unchanged. -/
lemma applyOp_rotations (o : ObjectState) (op : BuilderOp)
    (h : writes_rotations op = false) : (applyOp o op).rotations = o.rotations := by
  cases op <;> simp_all [applyOp, writes_rotations, ObjectState.resetAll]

/-- A call not writing `scale` leaves it unchanged. -/
lemma applyOp_scale (o : ObjectState) (op : BuilderOp)
    (h : writes_scale op = false) : (applyOp o op).scale = o.scale := by
  cases op <;> simp_all [applyOp, writes_scale, ObjectState.resetAll]

/-- A call not writing `position` leaves it unchanged. -/
lemma applyOp_position (o : ObjectState) (op : BuilderOp)
    (h : writes_position op = false) : (applyOp o op).position = o.position := by
  cases op <;> simp_all [applyOp, writes_position, ObjectState.resetAll]

/-- A call not writing `RGBA` leaves it unchanged. -/
lemma applyOp_RGBA (o : ObjectState) (op : BuilderOp)
    (h : writes_RGBA op = false) : (applyOp o op).RGBA = o.RGBA := by
  cases op <;> simp_all [applyOp, writes_RGBA, ObjectState.resetAll]

/-- A call not writing `shape` leaves it unchanged (`resetAll` included). -/
lemma applyOp_shape (o : ObjectState) (op : BuilderOp)
    (h : writes_shape op = false) : (applyOp o op).shape = o.shape := by
  cases op <;> simp_all [applyOp, writes_shape, ObjectState.resetAll]

/-- A call not writing `texture` leaves it unchanged. -/
lemma applyOp_texture (o : ObjectState) (op : BuilderOp)
    (h : writes_texture op = false) : (applyOp o op).texture = o.texture := by
  cases op <;> simp_all [applyOp, writes_texture, ObjectState.resetAll]

/-- A call not writing `shaderMaterial` leaves it unchanged. -/
lemma applyOp_shaderMaterial (o : ObjectState) (op : BuilderOp)
    (h : writes_shaderMaterial op = false) :
    (applyOp o op).shaderMaterial = o.shaderMaterial := by
  cases op <;> simp_all [applyOp, writes_shaderMaterial, ObjectState.resetAll]

/-- Lifts a per-call frame condition to call sequences. -/
lemma applyOps_frame {α : Sort _} (f : ObjectState → α) (w : BuilderOp → Bool)
    (hstep : ∀ (o : ObjectState) (op : BuilderOp), w op = false → f (applyOp o op) = f o) :
    ∀ (ops : List BuilderOp) (o : ObjectState),
      (∀ op ∈ ops, w op = false) → f (applyOps o ops) = f o := by
  intro ops
  induction ops with
  | nil => intro o _; rfl
  | cons op rest ih =>
      intro o h
      have h1 : w op = false := h op (List.mem_cons_self _ _)
      have h2 : ∀ x ∈ rest, w x = false := fun x hx => h x (List.mem_cons_of_mem _ hx)
      calc f (applyOps o (op :: rest)) = f (applyOps (applyOp o op) rest) := rfl
        _ = f (applyOp o op) := ih (applyOp o op) h2
        _ = f o := hstep o op h1

/-- Claim C4: over any sequence of builder calls, each member not written by a
setter (or by `resetAll`) since the start of the sequence keeps its value —
each setter mutates only its own member and `render` mutates none. -/
theorem builder_state_carry (o : ObjectState) (ops : List BuilderOp) :
    ((∀ op ∈ ops, writes_uvScale op = false) → (applyOps o ops).uvScale = o.uvScale) ∧
    ((∀ op ∈ ops, writes_rotations op = false) → (applyOps o ops).rotations = o.rotations) ∧
    ((∀ op ∈ ops, writes_scale op = false) → (applyOps o ops).scale = o.scale) ∧
    ((∀ op ∈ ops, writes_position op = false) → (applyOps o ops).position = o.position) ∧
    ((∀ op ∈ ops, writes_RGBA op = false) → (applyOps o ops).RGBA = o.RGBA) ∧
    ((∀ op ∈ ops, writes_shape op = false) → (applyOps o ops).shape = o.shape) ∧
    ((∀ op ∈ ops, writes_texture op = false) → (applyOps o ops).texture = o.texture) ∧
    ((∀ op ∈ ops, writes_shaderMaterial op = false) →
      (applyOps o ops).shaderMaterial = o.shaderMaterial) :=
  ⟨fun h => applyOps_frame _ _ applyOp_uvScale ops o h,
   fun h => applyOps_frame _ _ applyOp_rotations ops o h,
   fun h => applyOps_frame _ _ applyOp_scale ops o h,
   fun h => applyOps_frame _ _ applyOp_position ops o h,
   fun h => applyOps_frame _ _ applyOp_RGBA ops o h,
   fun h => applyOps_frame _ _ applyOp_shape ops o h,
   fun h => applyOps_frame _ _ applyOp_texture ops o h,
   fun h => applyOps_frame _ _ applyOp_shaderMaterial ops o h⟩

/-- Witness for claim C4: a sequence that sets the texture, renders, and moves
the position carries `uvScale`, `RGBA` and the mesh selector through. -/
theorem builder_state_carry_witness :
    (applyOps oPlain opsSample).uvScale = oPlain.uvScale ∧
    (applyOps oPlain opsSample).RGBA = oPlain.RGBA ∧
    (applyOps oPlain opsSample).shape = oPlain.shape := by
  obtain ⟨h1, _, _, _, h5, h6, _, _⟩ := builder_state_carry oPlain opsSample
  exact ⟨h1 (by decide), h5 (by decide), h6 (by decide)⟩

/-- Claim C5: `resetAll` restores every member except the mesh selector to the
documented defaults, whatever the prior state. -/
theorem resetAll_restores_defaults (o : ObjectState) :
    o.resetAll =
      { uvScale := ⟨0, 0⟩, rotations := ⟨0, 0, 0⟩, scale := ⟨1, 1, 1⟩,
        position := ⟨0, 0, 0⟩, RGBA := ⟨0, 0, 0, 1⟩, shape := o.shape,
        texture := "", shaderMaterial := "" } :=
  rfl

/-- Every event emitted by `SetShaderMaterial` is a `setVec3` or `setFloat`
uniform write. -/
lemma mem_setShaderMaterial (s : SceneManagerState) (junk : OBJECT_MATERIAL)
    (tag : String) (e : Event) (he : e ∈ SetShaderMaterial s junk tag) :
    (∃ n v, e = Event.cmd (ShaderCmd.setVec3 n v)) ∨
    (∃ n v, e = Event.cmd (ShaderCmd.setFloat n v)) := by
  simp only [SetShaderMaterial] at he
  split at he
  · split at he
    · simp only [List.mem_cons, List.not_mem_nil, or_false] at he
      rcases he with rfl | rfl | rfl | rfl | rfl
      · exact Or.inl ⟨_, _, rfl⟩
      · exact Or.inr ⟨_, _, rfl⟩
      · exact Or.inl ⟨_, _, rfl⟩
      · exact Or.inl ⟨_, _, rfl⟩
      · exact Or.inr ⟨_, _, rfl⟩
    · simp at he
  · simp at he

/-- `SetShaderMaterial` never writes `bUseTexture`. -/
lemma setShaderMaterial_filterMap_useTexture (s : SceneManagerState)
    (junk : OBJECT_MATERIAL) (tag : String) :
    (SetShaderMaterial s junk tag).filterMap useTextureValue = [] := by
  rw [List.filterMap_eq_nil_iff]
  intro e he
  rcases mem_setShaderMaterial s junk tag e he with ⟨n, v, rfl⟩ | ⟨n, v, rfl⟩ <;> rfl

/-- `SetShaderMaterial` never writes the model matrix. -/
lemma setShaderMaterial_filterMap_model (s : SceneManagerState)
    (junk : OBJECT_MATERIAL) (tag : String) :
    (SetShaderMaterial s junk tag).filterMap modelMatrixWrites = [] := by
  rw [List.filterMap_eq_nil_iff]
  intro e he
  rcases mem_setShaderMaterial s junk tag e he with ⟨n, v, rfl⟩ | ⟨n, v, rfl⟩ <;> rfl

/-- `SetShaderMaterial` never writes a sampler uniform. -/
lemma setShaderMaterial_countP_sampler (s : SceneManagerState)
    (junk : OBJECT_MATERIAL) (tag : String) :
    (SetShaderMaterial s junk tag).countP isSampler2DCmd = 0 := by
  rw [List.countP_eq_zero]
  intro e he
  rcases mem_setShaderMaterial s junk tag e he with ⟨n, v, rfl⟩ | ⟨n, v, rfl⟩ <;>
    simp [isSampler2DCmd]

/-- `SetShaderMaterial` never writes the UV scale. -/
lemma setShaderMaterial_countP_uv (s : SceneManagerState)
    (junk : OBJECT_MATERIAL) (tag : String) :
    (SetShaderMaterial s junk tag).countP isUVScaleCmd = 0 := by
  rw [List.countP_eq_zero]
  intro e he
  rcases mem_setShaderMaterial s junk tag e he with ⟨n, v, rfl⟩ | ⟨n, v, rfl⟩ <;>
    simp [isUVScaleCmd]

/-- `SetShaderMaterial` never draws. -/
lemma setShaderMaterial_countP_isDraw (s : SceneManagerState)
    (junk : OBJECT_MATERIAL) (tag : String) :
    (SetShaderMaterial s junk tag).countP isDraw = 0 := by
  rw [List.countP_eq_zero]
  intro e he
  rcases mem_setShaderMaterial s junk tag e he with ⟨n, v, rfl⟩ | ⟨n, v, rfl⟩ <;>
    simp [isDraw]

/-- Claim C3: every `render` call submits exactly one model matrix, equal to
`translation(position) * rotationX(rot.x) * rotationY(rot.y) * rotationZ(rot.z)
* scale(scale)` (angles converted from degrees to radians), composed in exactly
that order. -/
theorem render_model_matrix (s : SceneManagerState) (junk : OBJECT_MATERIAL)
    (o : ObjectState) :
    (o.render s junk).filterMap modelMatrixWrites =
      [glmTranslate o.position * glmRotateX (glmRadians o.rotations.x) *
       glmRotateY (glmRadians o.rotations.y) * glmRotateZ (glmRadians o.rotations.z) *
       glmScale o.scale] := by
  have hmat := setShaderMaterial_filterMap_model s junk o.shaderMaterial
  rw [ObjectState.render]
  by_cases ht : o.texture = "" <;> by_cases hm : o.shaderMaterial = "" <;>
    simp [SetTransformations, SetShaderColor, SetShaderTexture, SetTextureUVScale,
          List.filterMap_append, ht, hm, hmat, modelMatrixWrites, useTextureValue]

/-- Claim C10: every `render` call issues exactly one mesh draw, of the stored
selector, as the final event of the call — after all uniform submissions and
regardless of how the texture and material tags resolve. -/
theorem render_draws_exactly_once (s : SceneManagerState) (junk : OBJECT_MATERIAL)
    (o : ObjectState) :
    (o.render s junk).countP isDraw = 1 ∧
    (o.render s junk).getLast? = some (Event.draw o.shape) := by
  constructor
  · have hmat := setShaderMaterial_countP_isDraw s junk o.shaderMaterial
    rw [ObjectState.render]
    by_cases ht : o.texture = "" <;> by_cases hm : o.shaderMaterial = "" <;>
      simp [SetTransformations, SetShaderColor, SetShaderTexture, SetTextureUVScale,
            List.countP_append, List.countP_cons, ht, hm, hmat, isDraw]
  · rw [ObjectState.render]
    exact List.getLast?_concat _

/-- Claim C8: with an empty texture tag, the final `bUseTexture` value of the
call is `0` (the color submission disables sampling) and no sampler or UV-scale
uniform is written; with a non-empty tag, the final `bUseTexture` value is `1`,
the registry-resolved slot (`-1` when unresolved) is written as the sampler
value, and the UV scale is written. -/
theorem render_texture_modes (s : SceneManagerState) (junk : OBJECT_MATERIAL)
    (o : ObjectState) :
    (o.texture = "" →
      lastUseTexture (o.render s junk) = some 0 ∧
      (o.render s junk).countP isSampler2DCmd = 0 ∧
      (o.render s junk).countP isUVScaleCmd = 0) ∧
    (o.texture ≠ "" →
      lastUseTexture (o.render s junk) = some 1 ∧
      Event.cmd (ShaderCmd.setSampler2D "objectTexture" (FindTextureSlot s o.texture))
        ∈ o.render s junk ∧
      Event.cmd (ShaderCmd.setVec2 "UVscale" o.uvScale) ∈ o.render s junk) := by
  have hut := setShaderMaterial_filterMap_useTexture s junk o.shaderMaterial
  have hsam := setShaderMaterial_countP_sampler s junk o.shaderMaterial
  have huv := setShaderMaterial_countP_uv s junk o.shaderMaterial
  constructor
  · intro ht
    refine ⟨?_, ?_, ?_⟩ <;>
      · rw [ObjectState.render]
        by_cases hm : o.shaderMaterial = "" <;>
          simp [SetTransformations, SetShaderColor, lastUseTexture, useTextureValue,
                isSampler2DCmd, isUVScaleCmd, List.filterMap_append, List.countP_append,
                List.countP_cons, ht, hm, hut, hsam, huv]
  · intro ht
    have heta : (⟨o.uvScale.x, o.uvScale.y⟩ : Vec2) = o.uvScale := rfl
    refine ⟨?_, ?_, ?_⟩
    · rw [ObjectState.render]
      by_cases hm : o.shaderMaterial = "" <;>
        simp [SetTransformations, SetShaderColor, SetShaderTexture, SetTextureUVScale,
              lastUseTexture, useTextureValue, List.filterMap_append, ht, hm, hut]
    · rw [ObjectState.render]
      simp [SetShaderTexture, ht, List.mem_append]
    · rw [ObjectState.render]
      simp [SetTextureUVScale, ht, List.mem_append, heta]

/-- Witness for claim C8: a builder with no texture tag leaves sampling
disabled; one with the tag `"wood"` enables it and submits its slot. -/
theorem render_texture_modes_witness :
    lastUseTexture (oPlain.render sampleScene junkMaterial) = some 0 ∧
    lastUseTexture (oWood.render sampleScene junkMaterial) = some 1 ∧
    Event.cmd (ShaderCmd.setSampler2D "objectTexture" (FindTextureSlot sampleScene "wood"))
      ∈ oWood.render sampleScene junkMaterial := by
  refine ⟨((render_texture_modes sampleScene junkMaterial oPlain).1 rfl).1,
          ((render_texture_modes sampleScene junkMaterial oWood).2 (by decide)).1,
          ?_⟩
  exact ((render_texture_modes sampleScene junkMaterial oWood).2 (by decide)).2.1
